import Mathlib

/-!
Shallow embedding of the popular-post trending engine
(`src/go/src/socialapi/workers/popularpost/popularpost.go`) of the
backendbox/koding repository, together with theorems settling the
specification claims about it.

Modelling conventions:
* `time.Time` values are modelled as UTC Unix seconds (`Int`); Go's
  `t.Hour()/t.Minute()/t.Second()` subtraction in `getStartOfDay` is, for a
  UTC time, exactly `t - t.emod 86400` at second granularity, and every use
  of a time by the engine goes through `.Unix()` (seconds) or a comparison
  at second granularity, so nothing coarser is lost.
* Go errors are modelled by `Except String`.
* The Redis session is modelled by an environment of response functions,
  and each controller method additionally returns the ordered trace of
  Redis commands it issued, so that frame and sequencing claims are
  statable.  Float weights are modelled as exact rationals; the engine only
  forms the single quotient `1/i`.
* `fmt.Sprintf` decimal rendering (`%d`) is embedded by an executable
  decimal renderer `intDec` defined below, and the `%d`-applied-to-a-string
  mis-verb behaviour of Go `fmt` is embedded by `fmtBadDVerbString`.
-/

namespace PopularPost

/-! ### Decimal rendering: embedding of Go fmt `%d` -/

/-- The decimal digit character for `d` (callers only use `d < 10`). -/
def digitChar : Nat → Char
  | 0 => '0'
  | 1 => '1'
  | 2 => '2'
  | 3 => '3'
  | 4 => '4'
  | 5 => '5'
  | 6 => '6'
  | 7 => '7'
  | 8 => '8'
  | _ => '9'

/-- Little-endian decimal digits of `n`, with `fuel` bounding recursion depth
(structural recursion on `fuel`; callers pass `fuel = n`). -/
def natDecAux : Nat → Nat → List Char
  | _, 0 => []
  | 0, _ + 1 => []
  | fuel + 1, n + 1 => digitChar ((n + 1) % 10) :: natDecAux fuel ((n + 1) / 10)

/-- Big-endian decimal digit characters of `n`, as Go fmt `%d` prints a
nonnegative integer. -/
def natDecChars (n : Nat) : List Char :=
  if n = 0 then ['0'] else (natDecAux n n).reverse

/-- Decimal digit characters of an integer, as Go fmt `%d` prints it. -/
def intDecChars (n : Int) : List Char :=
  if n < 0 then '-' :: natDecChars (-n).toNat else natDecChars n.toNat

/-- Decimal rendering of an integer: the embedding of Go fmt `%d`. -/
def intDec (n : Int) : String :=
  ⟨intDecChars n⟩

/-! ### Data model

`models.Channel`, `models.ChannelMessage` and `models.Interaction` live in
the external `socialapi/models` package (not part of the sampled source);
only the fields read by this engine are modelled. `MetaBits.Is(models.Troll)`
is modelled as the boolean moderation flag it reads. -/

structure Channel where
  id : Int
  groupName : String
  name : String
  privacyConstant : String
  metaBitsTroll : Bool
  deriving DecidableEq

structure ChannelMessage where
  id : Int
  initialChannelId : Int
  createdAt : Int
  typeConstant : String
  metaBitsTroll : Bool
  deriving DecidableEq

structure Interaction where
  id : Int
  messageId : Int
  createdAt : Int
  deriving DecidableEq

/-- Modelled from the spec: the `models` package constant for a public
channel's privacy level ("Channel privacy is not public"). -/
def Channel_PRIVACY_PUBLIC : String := "public"

/-- Modelled from the spec: the `models` package constant for the "post"
content type ("Message's content-type is not post"). -/
def ChannelMessage_TYPE_POST : String := "post"

/-- Unix seconds of Go's zero `time.Time` (0001-01-01T00:00:00Z); `date.IsZero()`
is modelled as comparison with this value. -/
def goZeroUnix : Int := -62135596800

/-! ### Time helpers -/

/-- `getStartOfDay`: subtracts the hour, minute and second components, which
for a UTC time at second granularity is truncation to the start of the day. -/
def getStartOfDay (t : Int) : Int :=
  t - t % 86400

/-- `getXDaysAgo`: `t.Add(-time.Hour * 24 * days)`. -/
def getXDaysAgo (t : Int) (days : Int) : Int :=
  t - 24 * 60 * 60 * days

/-- `createdMoreThan7DaysAgo`: `time.Now().Sub(createdAt).Hours()/24 > 7`,
with `now` passed explicitly and the comparison carried out exactly. -/
def createdMoreThan7DaysAgo (now createdAt : Int) : Bool :=
  decide (7 * (24 * 60 * 60) < now - createdAt)

/-! ### Key helpers -/

def PopularPostKey : String := "popularpost"

/-- `PreparePopularPostKey`: `fmt.Sprintf("%s:%s:%s:%s:%d", environment,
group, PopularPostKey, channelName, day)`, with the configuration's
environment string passed explicitly. -/
def PreparePopularPostKey (environment group channelName : String) (day : Int) : String :=
  environment ++ ":" ++ group ++ ":" ++ PopularPostKey ++ ":" ++ channelName ++ ":" ++ intDec day

/-- `GetDailyKey`: a zero date defaults to now (UTC), then the date is
truncated to its day start and keyed. -/
def GetDailyKey (environment : String) (now : Int) (c : Channel) (date : Int) : String :=
  let date := if date = goZeroUnix then now else date
  PreparePopularPostKey environment c.groupName c.name (getStartOfDay date)

/-- Go `fmt`'s rendering of a `%d` verb applied to a string operand:
`%!d(string=value)`. -/
def fmtBadDVerbString (s : String) : String :=
  "%!d(string=" ++ s ++ ")"

/-- `GetSevenDayKey`: `fmt.Sprintf("%d-%d", postCreatedAtKey, sevenDaysAgo)`
where `postCreatedAtKey` is a string, so the first `%d` is a mis-verb. -/
def GetSevenDayKey (environment : String) (now : Int) (c : Channel) (cm : ChannelMessage) : String :=
  let postCreatedAtKey := GetDailyKey environment now c cm.createdAt
  let date := getStartOfDay cm.createdAt
  let sevenDaysAgo := getXDaysAgo date 7
  fmtBadDVerbString postCreatedAtKey ++ "-" ++ intDec sevenDaysAgo

/-! ### Eligibility -/

/-- `notEligibleForPopularPost`. -/
def notEligibleForPopularPost (c : Channel) (cm : ChannelMessage) : Bool :=
  if c.metaBitsTroll then true
  else if c.privacyConstant ≠ Channel_PRIVACY_PUBLIC then true
  else if cm.metaBitsTroll then true
  else if cm.typeConstant ≠ ChannelMessage_TYPE_POST then true
  else false

/-! ### Effectful controller methods

A Redis command is recorded in an explicit trace; the session's responses
(and the model lookups, and the configuration) are supplied by an `Env`. -/

inductive RedisOp where
  | existsCheck (key : String)
  | sortedSetIncrBy (key : String) (incr : Int) (member : Int)
  | sortedSetsUnion (destination : String) (keys : List String) (weights : List ℚ)
      (aggregate : String)
  deriving DecidableEq

structure Env where
  environment : String
  now : Int
  channelMessageById : Int → Except String ChannelMessage
  channelById : Int → Except String Channel
  redisExists : String → Bool
  redisSortedSetIncrBy : String → Int → Int → Except String Int
  redisSortedSetsUnion : String → List String → List ℚ → String → Except String Int

/-- `saveToDailyBucket`: one `SortedSetIncrBy` on the daily key. -/
def saveToDailyBucket (env : Env) (c : Channel) (cm : ChannelMessage) (i : Interaction)
    (incrementCount : Int) : Except String Unit × List RedisOp :=
  let key := GetDailyKey env.environment env.now c cm.createdAt
  match env.redisSortedSetIncrBy key incrementCount cm.id with
  | .ok _ => (.ok (), [.sortedSetIncrBy key incrementCount cm.id])
  | .error e => (.error e, [.sortedSetIncrBy key incrementCount cm.id])

/-- `createSevenDayCombinedBucket`: one weighted `SortedSetsUnion` of the
daily keys of the 8 days `from, from - 1 day, ..., from - 7 days` with
weights `1, 1, 1/2, ..., 1/7` and aggregate `SUM`. -/
def createSevenDayCombinedBucket (env : Env) (c : Channel) (cm : ChannelMessage)
    (key : String) (fromDate : Int) : Except String Unit × List RedisOp :=
  let aggregate := "SUM"
  let fromDay := getStartOfDay fromDate
  let keys := (List.range 8).map fun i =>
    GetDailyKey env.environment env.now c (getXDaysAgo fromDay (i : Nat))
  let weights := (List.range 8).map fun i =>
    if (i : Nat) = 0 then (1 : ℚ) else 1 / (i : Nat)
  match env.redisSortedSetsUnion key keys weights aggregate with
  | .ok _ => (.ok (), [.sortedSetsUnion key keys weights aggregate])
  | .error e => (.error e, [.sortedSetsUnion key keys weights aggregate])

/-- `saveToSevenDayBucket`: existence check, lazy union creation, then
`SortedSetIncrBy` on the seven-day key. -/
def saveToSevenDayBucket (env : Env) (c : Channel) (cm : ChannelMessage) (i : Interaction)
    (incrementCount : Int) : Except String Unit × List RedisOp :=
  let key := GetSevenDayKey env.environment env.now c cm
  let fromDate := getStartOfDay cm.createdAt
  let keyExists := env.redisExists key
  if keyExists then
    match env.redisSortedSetIncrBy key incrementCount cm.id with
    | .ok _ => (.ok (), [.existsCheck key, .sortedSetIncrBy key incrementCount cm.id])
    | .error e => (.error e, [.existsCheck key, .sortedSetIncrBy key incrementCount cm.id])
  else
    match createSevenDayCombinedBucket env c cm key fromDate with
    | (.error e, ops) => (.error e, .existsCheck key :: ops)
    | (.ok _, ops) =>
      match env.redisSortedSetIncrBy key incrementCount cm.id with
      | .ok _ =>
        (.ok (), .existsCheck key :: ops ++ [.sortedSetIncrBy key incrementCount cm.id])
      | .error e =>
        (.error e, .existsCheck key :: ops ++ [.sortedSetIncrBy key incrementCount cm.id])

/-- `handleInteraction`: lookups, eligibility and staleness filters, then the
daily and seven-day bucket updates in order. -/
def handleInteraction (env : Env) (incrementCount : Int) (i : Interaction) :
    Except String Unit × List RedisOp :=
  match env.channelMessageById i.messageId with
  | .error e => (.error e, [])
  | .ok cm =>
    match env.channelById cm.initialChannelId with
    | .error e => (.error e, [])
    | .ok c =>
      if notEligibleForPopularPost c cm then (.ok (), [])
      else if createdMoreThan7DaysAgo env.now cm.createdAt then (.ok (), [])
      else
        match saveToDailyBucket env c cm i incrementCount with
        | (.error e, ops) => (.error e, ops)
        | (.ok _, ops₁) =>
          match saveToSevenDayBucket env c cm i incrementCount with
          | (.error e, ops₂) => (.error e, ops₁ ++ ops₂)
          | (.ok _, ops₂) => (.ok (), ops₁ ++ ops₂)

/-- `InteractionSaved`: handle with increment +1. -/
def InteractionSaved (env : Env) (i : Interaction) : Except String Unit × List RedisOp :=
  handleInteraction env 1 i

/-- `InteractionDeleted`: handle with increment -1. -/
def InteractionDeleted (env : Env) (i : Interaction) : Except String Unit × List RedisOp :=
  handleInteraction env (-1) i

/-! ### Delivery boundary -/

structure Delivery where
  redelivered : Bool
  deriving DecidableEq

/-- The acknowledgement action taken on an AMQP delivery. -/
inductive DeliveryAction where
  | ack (multiple : Bool)
  | nack (multiple requeue : Bool)
  deriving DecidableEq

/-- `DefaultErrHandler`: on a redelivered failing message, `Ack(false)` and
return true; on a first-attempt failure, `Nack(false, true)` and return
false. -/
def DefaultErrHandler (delivery : Delivery) (err : String) : DeliveryAction × Bool :=
  if delivery.redelivered then (.ack false, true)
  else (.nack false true, false)

/-! ### Concrete fixtures used by the witness theorems -/

def chanW : Channel := ⟨1, "koding", "public", "public", false⟩
def chanTrollW : Channel := ⟨2, "koding", "public", "public", true⟩
def cmW : ChannelMessage := ⟨7, 1, 864000, "post", false⟩
def cmTrollW : ChannelMessage := ⟨8, 1, 864000, "post", true⟩
def cmOldW : ChannelMessage := ⟨9, 1, 0, "post", false⟩
def iW : Interaction := ⟨100, 7, 950000⟩
def jW : Interaction := ⟨200, 7, 123⟩
def iTrollW : Interaction := ⟨101, 8, 950000⟩
def iOldW : Interaction := ⟨102, 9, 950000⟩

def lookupMessageW : Int → Except String ChannelMessage := fun mid =>
  if mid = 7 then .ok cmW
  else if mid = 8 then .ok cmTrollW
  else if mid = 9 then .ok cmOldW
  else .error "koding: Not found"

def lookupChannelW : Int → Except String Channel := fun cid =>
  if cid = 1 then .ok chanW else .error "koding: Not found"

def envW : Env :=
  ⟨"dev", 950400, lookupMessageW, lookupChannelW, fun _ => false,
   fun _ _ _ => .ok 1, fun _ _ _ _ => .ok 8⟩

def envExistsW : Env :=
  ⟨"dev", 950400, lookupMessageW, lookupChannelW, fun _ => true,
   fun _ _ _ => .ok 1, fun _ _ _ _ => .ok 8⟩

def envIncrFailW : Env :=
  ⟨"dev", 950400, lookupMessageW, lookupChannelW, fun _ => false,
   fun _ _ _ => .error "redis: incr failed", fun _ _ _ _ => .ok 8⟩

def envUnionFailW : Env :=
  ⟨"dev", 950400, lookupMessageW, lookupChannelW, fun _ => false,
   fun _ _ _ => .ok 1, fun _ _ _ _ => .error "redis: union failed"⟩

/-! ### Helper lemmas about the decimal renderer -/

theorem digitChar_injOn : ∀ a, a < 10 → ∀ b, b < 10 →
    digitChar a = digitChar b → a = b := by
  decide

theorem digitChar_isDigit : ∀ a, a < 10 → (digitChar a).isDigit = true := by
  decide

theorem natDecAux_eq_nil {fuel n : Nat} (hn : n ≤ fuel) :
    natDecAux fuel n = [] ↔ n = 0 := by
  constructor
  · intro h
    cases n with
    | zero => rfl
    | succ m =>
      cases fuel with
      | zero => omega
      | succ f => simp [natDecAux] at h
  · intro h
    subst h
    cases fuel <;> rfl

theorem natDecAux_injOn :
    ∀ fuel₁ {fuel₂ n₁ n₂ : Nat}, n₁ ≤ fuel₁ → n₂ ≤ fuel₂ →
      natDecAux fuel₁ n₁ = natDecAux fuel₂ n₂ → n₁ = n₂ := by
  intro fuel₁
  induction fuel₁ with
  | zero =>
    intro fuel₂ n₁ n₂ h₁ h₂ h
    interval_cases n₁
    exact ((natDecAux_eq_nil h₂).mp h.symm).symm
  | succ f ih =>
    intro fuel₂ n₁ n₂ h₁ h₂ h
    cases n₁ with
    | zero => exact ((natDecAux_eq_nil h₂).mp h.symm).symm
    | succ a =>
      cases n₂ with
      | zero =>
        rw [show natDecAux fuel₂ 0 = [] from by cases fuel₂ <;> rfl] at h
        exact absurd ((natDecAux_eq_nil h₁).mp h) (by omega)
      | succ b =>
        cases fuel₂ with
        | zero => omega
        | succ g =>
          simp only [natDecAux, List.cons.injEq] at h
          obtain ⟨hhd, htl⟩ := h
          have hmod : (a + 1) % 10 = (b + 1) % 10 :=
            digitChar_injOn _ (Nat.mod_lt _ (by omega)) _ (Nat.mod_lt _ (by omega)) hhd
          have hdiv : (a + 1) / 10 = (b + 1) / 10 :=
            ih (by omega) (by omega) htl
          omega

theorem natDecChars_injective : Function.Injective natDecChars := by
  intro m n h
  unfold natDecChars at h
  by_cases hm : m = 0 <;> by_cases hn : n = 0
  · omega
  · exfalso
    simp only [hm, if_pos rfl, if_neg hn] at h
    have h' : natDecAux n n = ['0'] := by
      have := congrArg List.reverse h
      simpa using this.symm
    cases n with
    | zero => omega
    | succ b =>
      cases (Nat.succ_ne_zero b).lt_or_lt with
      | inl hlt => omega
      | inr _ =>
        cases b with
        | zero => simp [natDecAux, digitChar] at h'
        | succ c =>
          simp only [natDecAux, List.cons.injEq] at h'
          obtain ⟨hhd, htl⟩ := h'
          have hmod : (c + 2) % 10 = 0 := by
            have h0 : digitChar ((c + 2) % 10) = digitChar 0 := hhd
            exact digitChar_injOn _ (Nat.mod_lt _ (by omega)) _ (by omega) h0
          have hdiv : (c + 2) / 10 = 0 :=
            (natDecAux_eq_nil (by omega)).mp htl
          omega
  · exfalso
    simp only [hn, if_pos rfl, if_neg hm] at h
    have h' : natDecAux m m = ['0'] := by
      have := congrArg List.reverse h
      simpa using this
    cases m with
    | zero => omega
    | succ b =>
      cases b with
      | zero => simp [natDecAux, digitChar] at h'
      | succ c =>
        simp only [natDecAux, List.cons.injEq] at h'
        obtain ⟨hhd, htl⟩ := h'
        have hmod : (c + 2) % 10 = 0 := by
          have h0 : digitChar ((c + 2) % 10) = digitChar 0 := hhd
          exact digitChar_injOn _ (Nat.mod_lt _ (by omega)) _ (by omega) h0
        have hdiv : (c + 2) / 10 = 0 :=
          (natDecAux_eq_nil (by omega)).mp htl
        omega
  · simp only [if_neg hm, if_neg hn] at h
    exact natDecAux_injOn m le_rfl le_rfl (List.reverse_injective h)

theorem natDecAux_mem_isDigit {fuel n : Nat} {c : Char}
    (hc : c ∈ natDecAux fuel n) : c.isDigit = true := by
  induction fuel generalizing n with
  | zero => cases n <;> simp [natDecAux] at hc
  | succ f ih =>
    cases n with
    | zero => simp [natDecAux] at hc
    | succ a =>
      simp only [natDecAux, List.mem_cons] at hc
      cases hc with
      | inl h => exact h ▸ digitChar_isDigit _ (Nat.mod_lt _ (by omega))
      | inr h => exact ih h

theorem natDecChars_mem_isDigit {n : Nat} {c : Char}
    (hc : c ∈ natDecChars n) : c.isDigit = true := by
  unfold natDecChars at hc
  by_cases hn : n = 0
  · simp [hn] at hc
    rw [hc]
    decide
  · simp only [if_neg hn, List.mem_reverse] at hc
    exact natDecAux_mem_isDigit hc

theorem intDecChars_injective : Function.Injective intDecChars := by
  intro m n h
  unfold intDecChars at h
  by_cases hm : m < 0 <;> by_cases hn : n < 0
  · simp only [if_pos hm, if_pos hn, List.cons.injEq] at h
    have := natDecChars_injective h.2
    omega
  · exfalso
    simp only [if_pos hm, if_neg hn] at h
    have : ('-' : Char) ∈ natDecChars n.toNat := by
      rw [← h]; exact List.mem_cons_self _ _
    have := natDecChars_mem_isDigit this
    simp [Char.isDigit] at this
  · exfalso
    simp only [if_neg hm, if_pos hn] at h
    have : ('-' : Char) ∈ natDecChars m.toNat := by
      rw [h]; exact List.mem_cons_self _ _
    have := natDecChars_mem_isDigit this
    simp [Char.isDigit] at this
  · simp only [if_neg hm, if_neg hn] at h
    have := natDecChars_injective h
    omega

theorem intDec_injective : Function.Injective intDec := by
  intro m n h
  injection h with h
  exact intDecChars_injective h

/-- A daily key determines its day component. -/
theorem PreparePopularPostKey_day_inj {e g n : String} {d₁ d₂ : Int}
    (h : PreparePopularPostKey e g n d₁ = PreparePopularPostKey e g n d₂) : d₁ = d₂ := by
  unfold PreparePopularPostKey at h
  have h1 := congrArg String.data h
  simp only [String.data_append, List.append_assoc] at h1
  have h2 := List.append_cancel_left (List.append_cancel_left (List.append_cancel_left
    (List.append_cancel_left (List.append_cancel_left (List.append_cancel_left
    (List.append_cancel_left (List.append_cancel_left h1)))))))
  exact intDec_injective (congrArg String.mk h2)

/-! ### Claim theorems -/

/-- C1: `GetSevenDayKey` renders the daily key (a string) with the `%d` verb,
so the rolling key is not `{dailyKey}-{sevenDaysAgo}` as claimed but
`%!d(string={dailyKey})-{sevenDaysAgo}`: at the failing input below the
code produces the mis-verb string and not the claimed compound string. -/
theorem GetSevenDayKey_at_failing_input :
    GetSevenDayKey "dev" 0 chanW cmW
        = "%!d(string=dev:koding:popularpost:public:864000)-259200" ∧
    GetSevenDayKey "dev" 0 chanW cmW
        ≠ "dev:koding:popularpost:public:864000-259200" := by
  constructor
  · decide
  · decide

/-- C2: the daily key is a pure function of (environment, group name, channel
name, UTC day start): non-zero dates in the same UTC day (same floor-day,
hence same day start) give identical keys even across channel values
differing elsewhere, and dates in adjacent UTC days give different keys. -/
theorem GetDailyKey_day_characterisation (environment : String) (now : Int)
    (c₁ c₂ : Channel) (d₁ d₂ : Int)
    (hz₁ : d₁ ≠ goZeroUnix) (hz₂ : d₂ ≠ goZeroUnix)
    (hg : c₁.groupName = c₂.groupName) (hn : c₁.name = c₂.name) :
    (d₁ / 86400 = d₂ / 86400 →
        GetDailyKey environment now c₁ d₁ = GetDailyKey environment now c₂ d₂) ∧
    (d₁ / 86400 + 1 = d₂ / 86400 →
        GetDailyKey environment now c₁ d₁ ≠ GetDailyKey environment now c₂ d₂) := by
  simp only [GetDailyKey, if_neg hz₁, if_neg hz₂, hg, hn]
  constructor
  · intro h
    have hst : getStartOfDay d₁ = getStartOfDay d₂ := by
      unfold getStartOfDay
      omega
    rw [hst]
  · intro h heq
    have := PreparePopularPostKey_day_inj heq
    unfold getStartOfDay at this
    omega

/-- C2 witness: two timestamps of the same UTC day (noon vs. midnight of
1970-01-02, on channels differing outside group/name) share the daily key;
the next day's timestamp gets a different key. -/
theorem GetDailyKey_day_characterisation_witness :
    GetDailyKey "dev" 0 chanW 86400 = GetDailyKey "dev" 0 chanTrollW 129600 ∧
    GetDailyKey "dev" 0 chanW 86400 ≠ GetDailyKey "dev" 0 chanTrollW 172800 := by
  constructor
  · exact (GetDailyKey_day_characterisation "dev" 0 chanW chanTrollW 86400 129600
      (by decide) (by decide) rfl rfl).1 (by decide)
  · exact (GetDailyKey_day_characterisation "dev" 0 chanW chanTrollW 86400 172800
      (by decide) (by decide) rfl rfl).2 (by decide)

/-- C3: on a failing handler call, a redelivered message is acknowledged
(no requeue) and reported handled (true); a first-attempt failure is
negatively acknowledged with requeue requested (and reported unhandled). -/
theorem DefaultErrHandler_policy (d : Delivery) (err : String) :
    (d.redelivered = true → DefaultErrHandler d err = (.ack false, true)) ∧
    (d.redelivered = false → DefaultErrHandler d err = (.nack false true, false)) := by
  constructor <;> intro h <;> simp [DefaultErrHandler, h]

/-- C3 witness: both delivery cases at a concrete error. -/
theorem DefaultErrHandler_policy_witness :
    DefaultErrHandler ⟨true⟩ "boom" = (.ack false, true) ∧
    DefaultErrHandler ⟨false⟩ "boom" = (.nack false true, false) :=
  ⟨(DefaultErrHandler_policy ⟨true⟩ "boom").1 rfl,
   (DefaultErrHandler_policy ⟨false⟩ "boom").2 rfl⟩

/-- C6: the eligibility filter reports ineligible exactly when the channel is
troll-flagged, or the channel is not public, or the message is
troll-flagged, or the message is not of type post. -/
theorem notEligibleForPopularPost_iff (c : Channel) (cm : ChannelMessage) :
    notEligibleForPopularPost c cm = true ↔
      c.metaBitsTroll = true ∨ c.privacyConstant ≠ Channel_PRIVACY_PUBLIC ∨
      cm.metaBitsTroll = true ∨ cm.typeConstant ≠ ChannelMessage_TYPE_POST := by
  unfold notEligibleForPopularPost
  split_ifs with h1 h2 h3 h4 <;> simp_all

/-- C6 witness: a troll-flagged channel is ineligible; the clean pair is
eligible. -/
theorem notEligibleForPopularPost_iff_witness :
    notEligibleForPopularPost chanTrollW cmW = true ∧
    ¬ notEligibleForPopularPost chanW cmW = true :=
  ⟨(notEligibleForPopularPost_iff chanTrollW cmW).mpr (Or.inl rfl),
   fun h => by
     rcases (notEligibleForPopularPost_iff chanW cmW).mp h with h | h | h | h <;>
       simp [chanW, cmW, Channel_PRIVACY_PUBLIC, ChannelMessage_TYPE_POST] at h⟩

/-- C8: the stale check fires exactly when the message was created strictly
more than 7 * 24 hours before now, and not at exactly 7 days; it is a
function of the two timestamps alone. -/
theorem createdMoreThan7DaysAgo_spec (now createdAt : Int) :
    (createdMoreThan7DaysAgo now createdAt = true ↔ 7 * 86400 < now - createdAt) ∧
    createdMoreThan7DaysAgo now (now - 7 * 86400) = false := by
  unfold createdMoreThan7DaysAgo
  constructor
  · rw [decide_eq_true_eq]
    omega
  · exact decide_eq_false (by omega)

/-- C8 witness: one second beyond 7 days is dropped; exactly 7 days is not. -/
theorem createdMoreThan7DaysAgo_spec_witness :
    createdMoreThan7DaysAgo 604801 0 = true ∧
    createdMoreThan7DaysAgo 604800 (604800 - 7 * 86400) = false :=
  ⟨(createdMoreThan7DaysAgo_spec 604801 0).1.mpr (by decide),
   (createdMoreThan7DaysAgo_spec 604800 0).2⟩

/-- C4: materializing the rolling bucket issues exactly one weighted union,
whose sources are the 8 daily keys for offsets 0..7 days before the given
day, whose weights are 1 for offset 0 and 1/i for offset i > 0, and whose
aggregate function is SUM. -/
theorem createSevenDayCombinedBucket_union (env : Env) (c : Channel) (cm : ChannelMessage)
    (key : String) (fromDate : Int) :
    (createSevenDayCombinedBucket env c cm key fromDate).2
      = [RedisOp.sortedSetsUnion key
          ((List.range 8).map fun i =>
            GetDailyKey env.environment env.now c (getXDaysAgo (getStartOfDay fromDate) (i : Nat)))
          [1, 1, 1/2, 1/3, 1/4, 1/5, 1/6, 1/7] "SUM"] ∧
    ((List.range 8).map fun i =>
        GetDailyKey env.environment env.now c
          (getXDaysAgo (getStartOfDay fromDate) (i : Nat))).length = 8 := by
  have hw : ((List.range 8).map fun i => if (i : Nat) = 0 then (1 : ℚ) else 1 / (i : Nat))
      = [1, 1, 1/2, 1/3, 1/4, 1/5, 1/6, 1/7] := by
    simp [List.range_succ]
  constructor
  · simp only [createSevenDayCombinedBucket]
    rw [← hw]
    split <;> rfl
  · simp

/-- C5: the seven-day update first checks existence of the rolling key; when
present it issues only the member increment, when absent it issues the union
materialization and then the same member increment on the rolling key. -/
theorem saveToSevenDayBucket_flow (env : Env) (c : Channel) (cm : ChannelMessage)
    (i : Interaction) (inc : Int) :
    (env.redisExists (GetSevenDayKey env.environment env.now c cm) = true →
      (saveToSevenDayBucket env c cm i inc).2
        = [.existsCheck (GetSevenDayKey env.environment env.now c cm),
           .sortedSetIncrBy (GetSevenDayKey env.environment env.now c cm) inc cm.id]) ∧
    (env.redisExists (GetSevenDayKey env.environment env.now c cm) = false →
      ∀ r ops,
        createSevenDayCombinedBucket env c cm (GetSevenDayKey env.environment env.now c cm)
            (getStartOfDay cm.createdAt) = (Except.ok r, ops) →
        (saveToSevenDayBucket env c cm i inc).2
          = .existsCheck (GetSevenDayKey env.environment env.now c cm) :: ops
              ++ [.sortedSetIncrBy (GetSevenDayKey env.environment env.now c cm) inc cm.id]) := by
  constructor
  · intro h
    simp only [saveToSevenDayBucket, h, if_true]
    split <;> rfl
  · intro h r ops hcr
    simp only [saveToSevenDayBucket, h, Bool.false_eq_true, if_false, hcr]
    split <;> rfl

/-- C5 witness: the pre-existing-key path issues check then increment; the
absent-key path issues check, union, then increment. -/
theorem saveToSevenDayBucket_flow_witness :
    (saveToSevenDayBucket envExistsW chanW cmW iW 1).2
      = [.existsCheck (GetSevenDayKey "dev" 950400 chanW cmW),
         .sortedSetIncrBy (GetSevenDayKey "dev" 950400 chanW cmW) 1 cmW.id] ∧
    (saveToSevenDayBucket envW chanW cmW iW 1).2
      = .existsCheck (GetSevenDayKey "dev" 950400 chanW cmW)
          :: (createSevenDayCombinedBucket envW chanW cmW
                (GetSevenDayKey "dev" 950400 chanW cmW) (getStartOfDay cmW.createdAt)).2
          ++ [.sortedSetIncrBy (GetSevenDayKey "dev" 950400 chanW cmW) 1 cmW.id] :=
  ⟨(saveToSevenDayBucket_flow envExistsW chanW cmW iW 1).1 rfl,
   (saveToSevenDayBucket_flow envW chanW cmW iW 1).2 rfl ()
     (createSevenDayCombinedBucket envW chanW cmW
        (GetSevenDayKey "dev" 950400 chanW cmW) (getStartOfDay cmW.createdAt)).2 rfl⟩

/-- C7: when the looked-up message/channel pair is ineligible or the message
is stale, the handler issues no Redis operation at all and returns success. -/
theorem handleInteraction_skips (env : Env) (inc : Int) (i : Interaction)
    (cm : ChannelMessage) (c : Channel)
    (hm : env.channelMessageById i.messageId = .ok cm)
    (hc : env.channelById cm.initialChannelId = .ok c)
    (h : notEligibleForPopularPost c cm = true ∨
         createdMoreThan7DaysAgo env.now cm.createdAt = true) :
    handleInteraction env inc i = (.ok (), []) := by
  rcases h with h | h <;> simp [handleInteraction, hm, hc, h]

/-- C7 witness: a troll-flagged message and an 11-day-old message are both
silently skipped with an empty trace. -/
theorem handleInteraction_skips_witness :
    handleInteraction envW 1 iTrollW = (.ok (), []) ∧
    handleInteraction envW 1 iOldW = (.ok (), []) :=
  ⟨handleInteraction_skips envW 1 iTrollW cmTrollW chanW rfl rfl (Or.inl rfl),
   handleInteraction_skips envW 1 iOldW cmOldW chanW rfl rfl (Or.inr rfl)⟩

/-- C10: the handler's result and Redis trace depend on the interaction only
through its message id: two interactions with the same message id handled
with the same sign in the same environment produce identical outcomes. -/
theorem handleInteraction_messageId_determines (env : Env) (inc : Int) (i j : Interaction)
    (h : i.messageId = j.messageId) :
    handleInteraction env inc i = handleInteraction env inc j := by
  unfold handleInteraction saveToDailyBucket saveToSevenDayBucket
  rw [h]

/-- C10 witness: two interactions with different ids and creation times but
the same message id are handled identically. -/
theorem handleInteraction_messageId_determines_witness :
    handleInteraction envW 1 iW = handleInteraction envW 1 jW :=
  handleInteraction_messageId_determines envW 1 iW jW rfl

/-- C9: a message or channel lookup failure is returned with an empty Redis
trace; for an eligible fresh message the daily update (one increment on the
daily key) always comes first, a daily failure is returned with no seven-day
operation, a seven-day failure is returned after the daily trace, and a
successful result is returned exactly when both updates succeed. -/
theorem handleInteraction_error_flow (env : Env) (inc : Int) (i : Interaction) :
    (∀ e, env.channelMessageById i.messageId = .error e →
        handleInteraction env inc i = (.error e, [])) ∧
    (∀ cm e, env.channelMessageById i.messageId = .ok cm →
        env.channelById cm.initialChannelId = .error e →
        handleInteraction env inc i = (.error e, [])) ∧
    (∀ cm c, env.channelMessageById i.messageId = .ok cm →
        env.channelById cm.initialChannelId = .ok c →
        notEligibleForPopularPost c cm = false →
        createdMoreThan7DaysAgo env.now cm.createdAt = false →
        (saveToDailyBucket env c cm i inc).2
            = [RedisOp.sortedSetIncrBy (GetDailyKey env.environment env.now c cm.createdAt)
                inc cm.id] ∧
        (∀ e, (saveToDailyBucket env c cm i inc).1 = .error e →
            handleInteraction env inc i = (.error e, (saveToDailyBucket env c cm i inc).2)) ∧
        (∀ e, (saveToDailyBucket env c cm i inc).1 = .ok () →
            (saveToSevenDayBucket env c cm i inc).1 = .error e →
            handleInteraction env inc i
              = (.error e, (saveToDailyBucket env c cm i inc).2
                  ++ (saveToSevenDayBucket env c cm i inc).2)) ∧
        ((saveToDailyBucket env c cm i inc).1 = .ok () →
            (saveToSevenDayBucket env c cm i inc).1 = .ok () →
            handleInteraction env inc i
              = (.ok (), (saveToDailyBucket env c cm i inc).2
                  ++ (saveToSevenDayBucket env c cm i inc).2)) ∧
        ((handleInteraction env inc i).1 = .ok () →
            (saveToDailyBucket env c cm i inc).1 = .ok ()
              ∧ (saveToSevenDayBucket env c cm i inc).1 = .ok ())) := by
  refine ⟨?_, ?_, ?_⟩
  · intro e he
    simp [handleInteraction, he]
  · intro cm e hm hc
    simp [handleInteraction, hm, hc]
  · intro cm c hm hc he hs
    have hd2 : (saveToDailyBucket env c cm i inc).2
        = [RedisOp.sortedSetIncrBy (GetDailyKey env.environment env.now c cm.createdAt)
            inc cm.id] := by
      simp only [saveToDailyBucket]
      split <;> rfl
    have hmain : handleInteraction env inc i
        = match saveToDailyBucket env c cm i inc with
          | (.error e, ops) => (.error e, ops)
          | (.ok _, ops₁) =>
            match saveToSevenDayBucket env c cm i inc with
            | (.error e, ops₂) => (.error e, ops₁ ++ ops₂)
            | (.ok _, ops₂) => (.ok (), ops₁ ++ ops₂) := by
      simp [handleInteraction, hm, hc, he, hs]
    rcases hd : saveToDailyBucket env c cm i inc with ⟨r₁, ops₁⟩
    rcases h7 : saveToSevenDayBucket env c cm i inc with ⟨r₂, ops₂⟩
    rw [hd, h7] at hmain
    rw [hd] at hd2
    refine ⟨hd2, ?_, ?_, ?_, ?_⟩
    · intro e hde
      cases r₁ with
      | error e' =>
        simp at hde
        subst hde
        exact hmain
      | ok u => simp at hde
    · intro e hdo h7e
      cases r₁ with
      | error e' => simp at hdo
      | ok u =>
        cases r₂ with
        | error e' =>
          simp at h7e
          subst h7e
          exact hmain
        | ok v => simp at h7e
    · intro hdo h7o
      cases r₁ with
      | error e' => simp at hdo
      | ok u =>
        cases r₂ with
        | error e' => simp at h7o
        | ok v => exact hmain
    · intro hok
      rw [hmain] at hok
      cases r₁ with
      | error e' => simp at hok
      | ok u =>
        cases r₂ with
        | error e' => simp at hok
        | ok v => exact ⟨rfl, rfl⟩

/-- C9 witness: a missing message returns the lookup error with no Redis
calls; a failing daily increment returns its error with only the daily
operation issued; the all-success path returns success with the daily trace
followed by the seven-day trace. -/
theorem handleInteraction_error_flow_witness :
    handleInteraction envW 1 ⟨103, 999, 0⟩ = (.error "koding: Not found", []) ∧
    handleInteraction envIncrFailW 1 iW
      = (.error "redis: incr failed", (saveToDailyBucket envIncrFailW chanW cmW iW 1).2) ∧
    handleInteraction envW 1 iW
      = (.ok (), (saveToDailyBucket envW chanW cmW iW 1).2
          ++ (saveToSevenDayBucket envW chanW cmW iW 1).2) :=
  ⟨(handleInteraction_error_flow envW 1 ⟨103, 999, 0⟩).1 "koding: Not found" rfl,
   ((handleInteraction_error_flow envIncrFailW 1 iW).2.2 cmW chanW rfl rfl rfl rfl).2.1
     "redis: incr failed" rfl,
   ((handleInteraction_error_flow envW 1 iW).2.2 cmW chanW rfl rfl rfl rfl).2.2.2.1 rfl rfl⟩

end PopularPost
